import Mathlib

/-
Verification of src/charts.py, tool `create_chart_url`.

The tool accepts a chart configuration value and optional rendering
parameters, validates that the configuration is a dict, copies the
supplied parameters onto a freshly constructed QuickChart client
object, asks that client for a short URL, and returns either the URL
or an error string.

Embedding choices:
- `PyValue` models the dynamically typed Python value a caller may
  pass as `config` (dict, string, int, float, bool, list, None).
- `QCState` models the QuickChart client object as seen from this
  code: each field is `Option`-valued, `none` meaning the attribute
  was left untouched by `create_chart_url` (so the external
  client/service applies its own default), `some x` meaning the
  builder explicitly assigned `x`.  The state passed to the external
  call is the outgoing request.
- The external client (`quickchart` library, network, service) is an
  arbitrary function `QCState → Except String String`; `Except.error e`
  models `get_short_url` raising an exception whose string form is `e`.
- `CallOutcome` records the returned string together with the list of
  requests issued to the external client during the call, so that
  "issues no request" and "one request per call" are statable.
- Python `int` is `Int`, Python `float` is modelled as `Rat` (the
  builder performs no arithmetic on it, only passes it through).
- Python keyword defaults are explicit constants (`default_format`
  etc.); a caller omitting a parameter passes the default constant.
-/

/-- Runtime Python values that may be passed as `config`. -/
inductive PyValue where
  | pydict (entries : List (String × PyValue))
  | pystr (s : String)
  | pyint (n : Int)
  | pyfloat (q : Rat)
  | pybool (b : Bool)
  | pylist (xs : List PyValue)
  | pynone

/-- Python `isinstance(v, dict)`. -/
def PyValue.isDict : PyValue → Bool
  | .pydict _ => true
  | _ => false

/-- Python `isinstance(v, str)`. -/
def PyValue.isStr : PyValue → Bool
  | .pystr _ => true
  | _ => false

/-- The QuickChart client object, restricted to the attributes
`create_chart_url` may assign.  `none` = attribute not assigned by the
builder. -/
structure QCState where
  config : Option PyValue
  width : Option Int
  height : Option Int
  format : Option String
  background_color : Option String
  device_pixel_ratio : Option Rat
  version : Option String

/-- Line 53, `qc = QuickChart()`: a fresh client object on which the
builder has assigned nothing yet. -/
def freshQuickChart : QCState :=
  { config := none, width := none, height := none, format := none,
    background_color := none, device_pixel_ratio := none, version := none }

/-- Behaviour of the external QuickChart client: given the assembled
request state, either return a URL string or raise (modelled as
`Except.error` carrying the exception text). -/
def ClientBehavior : Type := QCState → Except String String

/-- Result of one call: the string returned to the caller, plus the
requests issued to the external client during the call. -/
structure CallOutcome where
  result : String
  requests : List QCState

/-- Line 57: the validation failure string returned for a non-dict
config. -/
def validationErrorMessage : String :=
  "Error: \x27config\x27 parameter must be a valid dictionary (JSON object)."

/-- Line 77: the marker prefixed to the exception detail when the
external call fails. -/
def generationErrorMarker : String :=
  "Error generating QuickChart URL: "

/-- Declared Python default for `width` (line 16): `None`. -/
def default_width : Option Int := none

/-- Declared Python default for `height` (line 17): `None`. -/
def default_height : Option Int := none

/-- Declared Python default for `format` (line 18): `"png"`. -/
def default_format : Option String := some "png"

/-- Declared Python default for `background_color` (line 19): `None`. -/
def default_background_color : Option String := none

/-- Declared Python default for `device_pixel_ratio` (line 20): `None`. -/
def default_device_pixel_ratio : Option Rat := none

/-- Declared Python default for `version` (line 21): `None`. -/
def default_version : Option String := none

/-- Embedding of `create_chart_url` (src/charts.py lines 14-77).
Parameters carry the Python argument values after keyword-default
substitution; the external client is passed explicitly. -/
def create_chart_url (config : PyValue)
    (width : Option Int) (height : Option Int) (format : Option String)
    (background_color : Option String) (device_pixel_ratio : Option Rat)
    (version : Option String) (client : ClientBehavior) : CallOutcome :=
  let qc := freshQuickChart
  if config.isDict = false then
    { result := validationErrorMessage, requests := [] }
  else
    let qc := { qc with config := some config }
    let qc := match width with
      | some w => { qc with width := some w }
      | none => qc
    let qc := match height with
      | some h => { qc with height := some h }
      | none => qc
    let qc := match format with
      | some f => { qc with format := some f }
      | none => qc
    let qc := match background_color with
      | some b => { qc with background_color := some b }
      | none => qc
    let qc := match device_pixel_ratio with
      | some d => { qc with device_pixel_ratio := some d }
      | none => qc
    let qc := match version with
      | some v => { qc with version := some v }
      | none => qc
    let resultStr : String :=
      match client qc with
      | .ok url => url
      | .error e => generationErrorMarker ++ e
    { result := resultStr, requests := [qc] }

/-- The request state that `create_chart_url` assembles for a dict
config: the config plus exactly the post-default parameter values. -/
def assembledRequest (config : PyValue)
    (width : Option Int) (height : Option Int) (format : Option String)
    (background_color : Option String) (device_pixel_ratio : Option Rat)
    (version : Option String) : QCState :=
  { config := some config, width := width, height := height, format := format,
    background_color := background_color, device_pixel_ratio := device_pixel_ratio,
    version := version }

theorem create_chart_url_dict_eq (config : PyValue) (hc : config.isDict = true)
    (width : Option Int) (height : Option Int) (format : Option String)
    (background_color : Option String) (device_pixel_ratio : Option Rat)
    (version : Option String) (client : ClientBehavior) :
    create_chart_url config width height format background_color
        device_pixel_ratio version client =
      { result := match client (assembledRequest config width height format
                      background_color device_pixel_ratio version) with
                  | .ok url => url
                  | .error e => generationErrorMarker ++ e,
        requests := [assembledRequest config width height format
                      background_color device_pixel_ratio version] } := by
  cases config with
  | pydict es =>
      cases width <;> cases height <;> cases format <;> cases background_color <;>
        cases device_pixel_ratio <;> cases version <;> rfl
  | pystr s => exact absurd hc (by simp [PyValue.isDict])
  | pyint n => exact absurd hc (by simp [PyValue.isDict])
  | pyfloat q => exact absurd hc (by simp [PyValue.isDict])
  | pybool b => exact absurd hc (by simp [PyValue.isDict])
  | pylist xs => exact absurd hc (by simp [PyValue.isDict])
  | pynone => exact absurd hc (by simp [PyValue.isDict])

theorem create_chart_url_nondict_eq (config : PyValue) (hc : config.isDict = false)
    (width : Option Int) (height : Option Int) (format : Option String)
    (background_color : Option String) (device_pixel_ratio : Option Rat)
    (version : Option String) (client : ClientBehavior) :
    create_chart_url config width height format background_color
        device_pixel_ratio version client =
      { result := validationErrorMessage, requests := [] } := by
  cases config with
  | pydict es => exact absurd hc (by simp [PyValue.isDict])
  | pystr s => rfl
  | pyint n => rfl
  | pyfloat q => rfl
  | pybool b => rfl
  | pylist xs => rfl
  | pynone => rfl

/-- C1: the claim states that every omitted optional parameter is absent
from the assembled request.  This fails for `format`: its declared
Python default is `"png"`, so a caller who omits `format` causes the
builder to assign `qc.format = "png"`, and the issued request carries
the format field.  Concretely: with a dict config and every optional
parameter left at its declared default, the issued request's format
field is `some "png"`, not absent. -/
theorem C1_counterexample :
    ((create_chart_url (PyValue.pydict []) default_width default_height default_format
        default_background_color default_device_pixel_ratio default_version
        (fun _ => Except.ok "https://quickchart.io/chart/render/c1")).requests.map
      QCState.format) = [some "png"] ∧ some "png" ≠ (none : Option String) := by
  constructor
  · rfl
  · simp

/-- C1 (amended): for a dict config the issued request carries exactly
the post-default parameter values: a parameter supplied as `some x`
appears with value `x`, a parameter that is absent (None) after Python
keyword-default substitution is omitted from the request; since every
declared default except format's is None, an omitted width, height,
background_color, device_pixel_ratio or version is omitted from the
request, while an omitted format is applied as `"png"`. -/
theorem C1_amended_thm (config : PyValue) (hc : config.isDict = true)
    (width height : Option Int) (format background_color : Option String)
    (device_pixel_ratio : Option Rat) (version : Option String)
    (client : ClientBehavior) :
    (create_chart_url config width height format background_color
        device_pixel_ratio version client).requests =
      [{ config := some config, width := width, height := height, format := format,
         background_color := background_color, device_pixel_ratio := device_pixel_ratio,
         version := version }] ∧
    default_width = none ∧ default_height = none ∧ default_background_color = none ∧
    default_device_pixel_ratio = none ∧ default_version = none ∧
    default_format = some "png" := by
  refine ⟨?_, rfl, rfl, rfl, rfl, rfl, rfl⟩
  rw [create_chart_url_dict_eq config hc width height format background_color
    device_pixel_ratio version client]
  rfl

theorem C1_amended_witness :
    (PyValue.pydict []).isDict = true ∧
    ((create_chart_url (PyValue.pydict []) (some 7) none none (some "#000000") none
        (some "3") (fun _ => Except.ok "https://quickchart.io/chart/render/w1")).requests =
      [{ config := some (PyValue.pydict []), width := some 7, height := none, format := none,
         background_color := some "#000000", device_pixel_ratio := none,
         version := some "3" }] ∧
    default_width = none ∧ default_height = none ∧ default_background_color = none ∧
    default_device_pixel_ratio = none ∧ default_version = none ∧
    default_format = some "png") :=
  ⟨rfl, C1_amended_thm (PyValue.pydict []) rfl (some 7) none none (some "#000000") none
    (some "3") (fun _ => Except.ok "https://quickchart.io/chart/render/w1")⟩

/-- C2: the claim states that with no optional parameters supplied the
issued request contains only the config field.  This fails: Python
substitutes the declared default `"png"` for an omitted `format`, so
the builder assigns `qc.format` and the request is not the config-only
request. -/
theorem C2_counterexample :
    (create_chart_url (PyValue.pydict []) default_width default_height default_format
        default_background_color default_device_pixel_ratio default_version
        (fun _ => Except.ok "https://quickchart.io/chart/render/c2")).requests ≠
      [{ config := some (PyValue.pydict []), width := none, height := none, format := none,
         background_color := none, device_pixel_ratio := none, version := none }] := by
  have hreq : (create_chart_url (PyValue.pydict []) default_width default_height
      default_format default_background_color default_device_pixel_ratio default_version
      (fun _ => Except.ok "https://quickchart.io/chart/render/c2")).requests =
      [{ config := some (PyValue.pydict []), width := none, height := none,
         format := some "png", background_color := none, device_pixel_ratio := none,
         version := none }] := rfl
  intro hcon
  rw [hreq] at hcon
  exact absurd (congrArg (fun l => l.map QCState.format) hcon) (by simp)

/-- C2 (amended): for a dict config, when the caller supplies no
optional rendering parameters the builder issues exactly one request
consisting of the config field plus format `"png"` (the declared
default applied by Python), with width, height, background_color,
device_pixel_ratio and version all absent; and the returned value is
exactly the URL string the external client issued for that request
(its syntactic validity is the external client's guarantee). -/
theorem C2_amended_thm (config : PyValue) (hc : config.isDict = true)
    (client : ClientBehavior) (u : String)
    (hok : client (assembledRequest config default_width default_height default_format
        default_background_color default_device_pixel_ratio default_version) =
      Except.ok u) :
    create_chart_url config default_width default_height default_format
        default_background_color default_device_pixel_ratio default_version client =
      { result := u,
        requests := [{ config := some config, width := none, height := none,
                       format := some "png", background_color := none,
                       device_pixel_ratio := none, version := none }] } := by
  rw [create_chart_url_dict_eq config hc default_width default_height default_format
    default_background_color default_device_pixel_ratio default_version client, hok]
  rfl

theorem C2_amended_witness :
    (PyValue.pydict [("type", PyValue.pystr "bar")]).isDict = true ∧
    ((fun _ => Except.ok "https://quickchart.io/chart/render/w2") : ClientBehavior)
        (assembledRequest (PyValue.pydict [("type", PyValue.pystr "bar")]) default_width
          default_height default_format default_background_color
          default_device_pixel_ratio default_version) =
      Except.ok "https://quickchart.io/chart/render/w2" ∧
    create_chart_url (PyValue.pydict [("type", PyValue.pystr "bar")]) default_width
        default_height default_format default_background_color default_device_pixel_ratio
        default_version (fun _ => Except.ok "https://quickchart.io/chart/render/w2") =
      { result := "https://quickchart.io/chart/render/w2",
        requests := [{ config := some (PyValue.pydict [("type", PyValue.pystr "bar")]),
                       width := none, height := none, format := some "png",
                       background_color := none, device_pixel_ratio := none,
                       version := none }] } :=
  ⟨rfl, rfl,
    C2_amended_thm (PyValue.pydict [("type", PyValue.pystr "bar")]) rfl
      (fun _ => Except.ok "https://quickchart.io/chart/render/w2")
      "https://quickchart.io/chart/render/w2" rfl⟩

/-- C3: for a config that is neither a dict nor a string, the call
returns the validation error string (which carries the "Error" marker),
issues no request to the external client, and — being a total function
into CallOutcome — raises nothing. -/
theorem C3_thm (config : PyValue) (h1 : config.isDict = false)
    (h2 : config.isStr = false) (width height : Option Int)
    (format background_color : Option String) (device_pixel_ratio : Option Rat)
    (version : Option String) (client : ClientBehavior) :
    (create_chart_url config width height format background_color
        device_pixel_ratio version client).result = validationErrorMessage ∧
    (create_chart_url config width height format background_color
        device_pixel_ratio version client).requests = [] ∧
    validationErrorMessage =
      "Error" ++ ": \x27config\x27 parameter must be a valid dictionary (JSON object)." := by
  rw [create_chart_url_nondict_eq config h1 width height format background_color
    device_pixel_ratio version client]
  exact ⟨rfl, rfl, by decide⟩

theorem C3_witness :
    (PyValue.pyint 42).isDict = false ∧ (PyValue.pyint 42).isStr = false ∧
    ((create_chart_url (PyValue.pyint 42) none none (some "png") none none none
        (fun _ => Except.ok "https://quickchart.io/chart/render/w3")).result =
      validationErrorMessage ∧
    (create_chart_url (PyValue.pyint 42) none none (some "png") none none none
        (fun _ => Except.ok "https://quickchart.io/chart/render/w3")).requests = [] ∧
    validationErrorMessage =
      "Error" ++ ": \x27config\x27 parameter must be a valid dictionary (JSON object).") :=
  ⟨rfl, rfl,
    C3_thm (PyValue.pyint 42) rfl rfl none none (some "png") none none none
      (fun _ => Except.ok "https://quickchart.io/chart/render/w3")⟩

/-- C4: the claim states the error marker is "Error generating chart
URL: ".  The source (line 77) uses "Error generating QuickChart URL: ",
so with a dict config and a client that raises "boom" the returned
string differs from the claimed one. -/
theorem C4_counterexample :
    (create_chart_url (PyValue.pydict []) none none (some "png") none none none
        (fun _ => Except.error "boom")).result ≠
      "Error generating chart URL: " ++ "boom" ∧
    (create_chart_url (PyValue.pydict []) none none (some "png") none none none
        (fun _ => Except.error "boom")).result =
      generationErrorMarker ++ "boom" := by
  constructor
  · decide
  · rfl

/-- C4 (amended): for a dict config, whenever the external client call
raises a failure with detail e, the call catches it and returns the
string consisting of the fixed marker "Error generating QuickChart
URL: " followed by e, and does not propagate the failure. -/
theorem C4_amended_thm (config : PyValue) (hc : config.isDict = true)
    (width height : Option Int) (format background_color : Option String)
    (device_pixel_ratio : Option Rat) (version : Option String)
    (e : String) (client : ClientBehavior)
    (hraise : ∀ req, client req = Except.error e) :
    (create_chart_url config width height format background_color
        device_pixel_ratio version client).result = generationErrorMarker ++ e := by
  rw [create_chart_url_dict_eq config hc width height format background_color
    device_pixel_ratio version client, hraise]

theorem C4_amended_witness :
    (PyValue.pydict []).isDict = true ∧
    (create_chart_url (PyValue.pydict []) none none (some "png") none none none
        (fun _ => Except.error "connection refused")).result =
      generationErrorMarker ++ "connection refused" :=
  ⟨rfl,
    C4_amended_thm (PyValue.pydict []) rfl none none (some "png") none none none
      "connection refused" (fun _ => Except.error "connection refused")
      (fun _ => rfl)⟩

/-- C5: the call is total: for every config value, every combination of
optional parameters and every behaviour of the external client, the
returned result is a string, reached on exactly one of three paths:
the validation error for a non-dict config, the URL the client
returned, or the marker-prefixed error string when the client raised.
No path escapes with an exception or terminates the process. -/
theorem C5_thm (config : PyValue) (width height : Option Int)
    (format background_color : Option String) (device_pixel_ratio : Option Rat)
    (version : Option String) (client : ClientBehavior) :
    (config.isDict = false ∧
      (create_chart_url config width height format background_color
          device_pixel_ratio version client).result = validationErrorMessage) ∨
    (∃ u, client (assembledRequest config width height format background_color
          device_pixel_ratio version) = Except.ok u ∧
      (create_chart_url config width height format background_color
          device_pixel_ratio version client).result = u) ∨
    (∃ e, client (assembledRequest config width height format background_color
          device_pixel_ratio version) = Except.error e ∧
      (create_chart_url config width height format background_color
          device_pixel_ratio version client).result =
        generationErrorMarker ++ e) := by
  cases hc : config.isDict with
  | false =>
      refine Or.inl ⟨rfl, ?_⟩
      rw [create_chart_url_nondict_eq config hc width height format background_color
        device_pixel_ratio version client]
  | true =>
      have h := create_chart_url_dict_eq config hc width height format background_color
        device_pixel_ratio version client
      cases hcl : client (assembledRequest config width height format background_color
          device_pixel_ratio version) with
      | ok u =>
          refine Or.inr (Or.inl ⟨u, rfl, ?_⟩)
          rw [h, hcl]
      | error e =>
          refine Or.inr (Or.inr ⟨e, rfl, ?_⟩)
          rw [h, hcl]

/-- C6: the claim states that a string config is accepted by validation
and proceeds to the external request.  It is not: line 56 accepts only
dicts, so a string config receives the validation error string and no
request is issued. -/
theorem C6_counterexample :
    (create_chart_url (PyValue.pystr "type bar data 1 2 3") none none (some "png")
        none none none
        (fun _ => Except.ok "https://quickchart.io/chart/render/c6")).result =
      validationErrorMessage ∧
    (create_chart_url (PyValue.pystr "type bar data 1 2 3") none none (some "png")
        none none none
        (fun _ => Except.ok "https://quickchart.io/chart/render/c6")).requests = [] :=
  ⟨rfl, rfl⟩

/-- C6 (amended): validation accepts only dict configs.  A string
config, like every other non-dict value, fails the isinstance check,
returns the ValidationError string, and never reaches the external
request. -/
theorem C6_amended_thm (s : String) (width height : Option Int)
    (format background_color : Option String) (device_pixel_ratio : Option Rat)
    (version : Option String) (client : ClientBehavior) :
    (PyValue.pystr s).isDict = false ∧
    (create_chart_url (PyValue.pystr s) width height format background_color
        device_pixel_ratio version client).result = validationErrorMessage ∧
    (create_chart_url (PyValue.pystr s) width height format background_color
        device_pixel_ratio version client).requests = [] := by
  refine ⟨rfl, ?_, ?_⟩ <;>
    rw [create_chart_url_nondict_eq (PyValue.pystr s) rfl width height format
      background_color device_pixel_ratio version client]

/-- One logical call: a (config, options) input pair. -/
structure CallInput where
  config : PyValue
  width : Option Int
  height : Option Int
  format : Option String
  background_color : Option String
  device_pixel_ratio : Option Rat
  version : Option String

/-- Run one call against the external client.  Mirrors that each call
constructs its own fresh QuickChart object (line 53): no state flows in
from anywhere but the call's own input. -/
def runCall (client : ClientBehavior) (c : CallInput) : CallOutcome :=
  create_chart_url c.config c.width c.height c.format c.background_color
    c.device_pixel_ratio c.version client

/-- Run a sequence of calls against the external client. -/
def runCalls (client : ClientBehavior) (calls : List CallInput) : List CallOutcome :=
  calls.map (runCall client)

/-- C7: request assembly is stateless and deterministic: in any
sequence of calls, the outcome (returned string and issued requests) of
the i-th call is a function of the i-th input alone — no mutable state
is shared with earlier calls — and two calls anywhere in the sequence
with identical (config, options) inputs produce identical outcomes,
hence identical assembled requests for the same logical chart. -/
theorem C7_thm (client : ClientBehavior) (calls : List CallInput) (i j : Nat)
    (hij : calls[i]? = calls[j]?) :
    (runCalls client calls)[i]? = (runCalls client calls)[j]? ∧
    (runCalls client calls)[i]? = (calls[i]?).map (runCall client) := by
  constructor
  · simp only [runCalls, List.getElem?_map, hij]
  · simp only [runCalls, List.getElem?_map]

theorem C7_witness :
    (runCalls (fun _ => Except.ok "https://quickchart.io/chart/render/w7")
        [⟨PyValue.pydict [], none, none, some "png", none, none, none⟩,
         ⟨PyValue.pydict [], none, none, some "png", none, none, none⟩])[0]? =
      (runCalls (fun _ => Except.ok "https://quickchart.io/chart/render/w7")
        [⟨PyValue.pydict [], none, none, some "png", none, none, none⟩,
         ⟨PyValue.pydict [], none, none, some "png", none, none, none⟩])[1]? ∧
    (runCalls (fun _ => Except.ok "https://quickchart.io/chart/render/w7")
        [⟨PyValue.pydict [], none, none, some "png", none, none, none⟩,
         ⟨PyValue.pydict [], none, none, some "png", none, none, none⟩])[0]? =
      (([⟨PyValue.pydict [], none, none, some "png", none, none, none⟩,
         ⟨PyValue.pydict [], none, none, some "png", none, none, none⟩] :
          List CallInput)[0]?).map
        (runCall (fun _ => Except.ok "https://quickchart.io/chart/render/w7")) :=
  C7_thm (fun _ => Except.ok "https://quickchart.io/chart/render/w7")
    [⟨PyValue.pydict [], none, none, some "png", none, none, none⟩,
     ⟨PyValue.pydict [], none, none, some "png", none, none, none⟩] 0 1 rfl

/-- C8: format is asymmetric with respect to absence: with every
parameter at its declared Python default (the omitted-caller case) the
issued request carries format "png", while explicitly passing None for
every parameter (including format) leaves format absent; all other
optional parameters default to None, so for them omitting and passing
None coincide. -/
theorem C8_thm (config : PyValue) (hc : config.isDict = true)
    (client : ClientBehavior) :
    ((create_chart_url config default_width default_height default_format
        default_background_color default_device_pixel_ratio default_version
        client).requests.map QCState.format) = [some "png"] ∧
    ((create_chart_url config none none none none none none client).requests.map
      QCState.format) = [none] ∧
    default_format = some "png" ∧ default_width = none ∧ default_height = none ∧
    default_background_color = none ∧ default_device_pixel_ratio = none ∧
    default_version = none := by
  refine ⟨?_, ?_, rfl, rfl, rfl, rfl, rfl, rfl⟩
  · rw [create_chart_url_dict_eq config hc default_width default_height default_format
      default_background_color default_device_pixel_ratio default_version client]
    rfl
  · rw [create_chart_url_dict_eq config hc none none none none none none client]
    rfl

theorem C8_witness :
    (PyValue.pydict []).isDict = true ∧
    (((create_chart_url (PyValue.pydict []) default_width default_height default_format
        default_background_color default_device_pixel_ratio default_version
        (fun _ => Except.ok "https://quickchart.io/chart/render/w8")).requests.map
      QCState.format) = [some "png"] ∧
    ((create_chart_url (PyValue.pydict []) none none none none none none
        (fun _ => Except.ok "https://quickchart.io/chart/render/w8")).requests.map
      QCState.format) = [none] ∧
    default_format = some "png" ∧ default_width = none ∧ default_height = none ∧
    default_background_color = none ∧ default_device_pixel_ratio = none ∧
    default_version = none) :=
  ⟨rfl, C8_thm (PyValue.pydict []) rfl
    (fun _ => Except.ok "https://quickchart.io/chart/render/w8")⟩

/-- C9: no range validation is performed on optional parameters: for a
dict config, every supplied width, height and device_pixel_ratio —
the full integer and rational ranges, zero and negatives included — is
copied into the issued request unchanged, and the external request is
still issued (the request list is nonempty, so no validation error
short-circuited the call). -/
theorem C9_thm (config : PyValue) (hc : config.isDict = true) (w h : Int) (d : Rat)
    (format background_color : Option String) (version : Option String)
    (client : ClientBehavior) :
    (create_chart_url config (some w) (some h) format background_color (some d)
        version client).requests =
      [{ config := some config, width := some w, height := some h, format := format,
         background_color := background_color, device_pixel_ratio := some d,
         version := version }] ∧
    (create_chart_url config (some w) (some h) format background_color (some d)
        version client).requests ≠ [] := by
  have hr := create_chart_url_dict_eq config hc (some w) (some h) format
    background_color (some d) version client
  rw [hr]
  exact ⟨rfl, by simp⟩

theorem C9_witness :
    (PyValue.pydict []).isDict = true ∧
    ((create_chart_url (PyValue.pydict []) (some (-5)) (some 0) (some "svg") none
        (some (-1)) none
        (fun _ => Except.ok "https://quickchart.io/chart/render/w9")).requests =
      [{ config := some (PyValue.pydict []), width := some (-5), height := some 0,
         format := some "svg", background_color := none, device_pixel_ratio := some (-1),
         version := none }] ∧
    (create_chart_url (PyValue.pydict []) (some (-5)) (some 0) (some "svg") none
        (some (-1)) none
        (fun _ => Except.ok "https://quickchart.io/chart/render/w9")).requests ≠ []) :=
  ⟨rfl, C9_thm (PyValue.pydict []) rfl (-5) 0 (-1) (some "svg") none none
    (fun _ => Except.ok "https://quickchart.io/chart/render/w9")⟩

/-- A heap of Python objects addressed by index, modelling the
reference semantics of the caller's config dict. -/
def Heap : Type := List PyValue

/-- Read the object a reference points to. -/
def readRef (heap : Heap) (r : Nat) : PyValue := List.getD heap r PyValue.pynone

/-- Embedding of `create_chart_url` with the caller's config passed by
reference into an explicit heap, mirroring the source statement by
statement.  The function reads the dict through the reference (the
isinstance check on line 56 and the assignment `qc.config = config` on
line 58, which stores the reference on the local client object without
copying or altering the dict); no statement in the body writes through
the reference, so every path returns the heap it was given. -/
def create_chart_url_heap (heap : Heap) (configRef : Nat)
    (width : Option Int) (height : Option Int) (format : Option String)
    (background_color : Option String) (device_pixel_ratio : Option Rat)
    (version : Option String) (client : ClientBehavior) : CallOutcome × Heap :=
  let qc := freshQuickChart
  let cfg := readRef heap configRef
  if cfg.isDict = false then
    ({ result := validationErrorMessage, requests := [] }, heap)
  else
    let qc := { qc with config := some cfg }
    let qc := match width with
      | some w => { qc with width := some w }
      | none => qc
    let qc := match height with
      | some h => { qc with height := some h }
      | none => qc
    let qc := match format with
      | some f => { qc with format := some f }
      | none => qc
    let qc := match background_color with
      | some b => { qc with background_color := some b }
      | none => qc
    let qc := match device_pixel_ratio with
      | some d => { qc with device_pixel_ratio := some d }
      | none => qc
    let qc := match version with
      | some v => { qc with version := some v }
      | none => qc
    let resultStr : String :=
      match client qc with
      | .ok url => url
      | .error e => generationErrorMarker ++ e
    ({ result := resultStr, requests := [qc] }, heap)

theorem create_chart_url_heap_eq (heap : Heap) (configRef : Nat)
    (width : Option Int) (height : Option Int) (format : Option String)
    (background_color : Option String) (device_pixel_ratio : Option Rat)
    (version : Option String) (client : ClientBehavior) :
    create_chart_url_heap heap configRef width height format background_color
        device_pixel_ratio version client =
      (create_chart_url (readRef heap configRef) width height format
        background_color device_pixel_ratio version client, heap) := by
  unfold create_chart_url_heap create_chart_url
  cases hcfg : (readRef heap configRef).isDict <;> simp [hcfg]

/-- C10: frame property: the heap holding the caller's config dict is
returned unchanged by every call, on the validation-failure path, the
success path and the upstream-error path alike, so the dict the caller
passed reads back identically after the call; and the call's outcome is
exactly that of the pure builder applied to the dict read through the
reference. -/
theorem C10_thm (heap : Heap) (configRef : Nat)
    (width : Option Int) (height : Option Int) (format : Option String)
    (background_color : Option String) (device_pixel_ratio : Option Rat)
    (version : Option String) (client : ClientBehavior) :
    (create_chart_url_heap heap configRef width height format background_color
        device_pixel_ratio version client).2 = heap ∧
    readRef (create_chart_url_heap heap configRef width height format
        background_color device_pixel_ratio version client).2 configRef =
      readRef heap configRef ∧
    (create_chart_url_heap heap configRef width height format background_color
        device_pixel_ratio version client).1 =
      create_chart_url (readRef heap configRef) width height format
        background_color device_pixel_ratio version client := by
  rw [create_chart_url_heap_eq heap configRef width height format background_color
    device_pixel_ratio version client]
  exact ⟨rfl, rfl, rfl⟩
